import Mathlib

/-!
Verification of the SilverSprint readiness-scoring and telemetry core.

JavaScript numbers are modelled as exact rationals (ℚ).  The source's
rounding primitives are modelled explicitly:
  * `Math.round`            → `jsRound`   (nearest integer, ties toward +∞)
  * `parseFloat(x.toFixed(f))` → `toFixedQ f` (nearest multiple of 10⁻ᶠ,
    ties pick the larger value, per the ECMA toFixed specification)
-/

namespace SilverSprint

/-- JS Math.round: nearest integer, ties toward plus infinity. -/
def jsRound (q : ℚ) : ℤ := ⌊q + 1/2⌋

/-- JS parseFloat(x.toFixed(f)): x rounded to f decimal places
(nearest, ties pick the larger candidate, per ECMA-262). -/
def toFixedQ (f : ℕ) (q : ℚ) : ℚ := (⌊q * 10 ^ f + 1/2⌋ : ℚ) / 10 ^ f

/-- JS Number.prototype.toFixed(f) rendered as a string (sign, integer
part, point, f zero-padded fraction digits). -/
def toFixedStr (f : ℕ) (q : ℚ) : String :=
  let n : ℤ := ⌊q * 10 ^ f + 1/2⌋
  let sign := if n < 0 then "-" else ""
  let m := n.natAbs
  let digits := toString (m % 10 ^ f)
  let pad := String.mk (List.replicate (f - digits.length) '0')
  if f = 0 then sign ++ toString m
  else sign ++ toString (m / 10 ^ f) ++ "." ++ pad ++ digits

/-- JS template-literal rendering of a number.  Exact for integer values,
which is the only domain the source interpolates raw (athlete age). -/
def ratToJSString (q : ℚ) : String :=
  if q.den = 1 then toString q.num else toString q.num ++ "/" ++ toString q.den

/-! ## src/src/logic/logic.ts and src/unnamed/part_009 — SilverSprintLogic
The two files carry byte-identical copies of these static methods. -/

structure HRVData where
  currentHRV : ℚ
  avgHRV7d : ℚ
  deriving DecidableEq, Repr

inductive NFIStatus where
  | green
  | amber
  | red
  deriving DecidableEq, Repr

/-- SilverSprintLogic.calculateNFI: NFI = currentVmax / avgVmax
(30-day rolling baseline), to 3 decimals; 1.0 on a non-positive baseline. -/
def calculateNFI (currentVmax avgVmax : ℚ) : ℚ :=
  if 0 < avgVmax then toFixedQ 3 (currentVmax / avgVmax) else 1

/-- SilverSprintLogic.calculateSRS: composite 0-100 sprint readiness score,
weights HRV 45% / TSB 30% / NFI 25%, each sub-score clamped to [0,100]. -/
def calculateSRS (hrv : HRVData) (tsb nfi : ℚ) : ℤ :=
  let hrvRatio := if 0 < hrv.avgHRV7d then hrv.currentHRV / hrv.avgHRV7d else 1
  let hrvScore := min 100 (max 0 ((hrvRatio - 0.75) / 0.30 * 100))
  let tsbScore := min 100 (max 0 ((tsb + 20) / 40 * 100))
  let nfiScore := min 100 (max 0 ((nfi - 0.90) / 0.10 * 100))
  jsRound (hrvScore * 0.45 + tsbScore * 0.30 + nfiScore * 0.25)

/-- SilverSprintLogic.getNFIStatus: green above 0.97, amber from 0.94 to
0.97 inclusive, red below 0.94. -/
def getNFIStatus (nfi : ℚ) : NFIStatus :=
  if 0.97 < nfi then .green
  else if 0.94 ≤ nfi then .amber
  else .red

/-- SilverSprintLogic.calculateFreshnessAdjustedSRS: when stale-Vmax is
detected (NFI amber or red while TSB is non-negative) the NFI input is
replaced by the neutral 1.0 before scoring. -/
def calculateFreshnessAdjustedSRS (hrv : HRVData) (tsb nfi : ℚ) : ℤ :=
  let nfiStatus := getNFIStatus nfi
  if (nfiStatus = .red ∨ nfiStatus = .amber) ∧ 0 ≤ tsb then
    calculateSRS hrv tsb 1
  else
    calculateSRS hrv tsb nfi

/-! ## src/src/domain/sprint/race-plan.ts — sprint workout generator -/

structure SprintBlock where
  name : String
  reps : ℕ
  distance : String
  rest : String
  intensity : String
  cue : String
  deriving DecidableEq, Repr

structure SprintWorkout where
  name : String
  status : NFIStatus
  rationale : String
  warmup : List String
  mainSet : List SprintBlock
  cooldown : List String
  totalSprintVolume : String
  workoutDescription : String
  deriving DecidableEq, Repr

/-- Optional context for smarter workout selection. -/
structure SprintContext where
  tsb : ℚ
  deriving DecidableEq, Repr

/-- isStaleVmax: NFI is amber or red while the supplied TSB is non-negative;
false whenever no context is supplied. -/
def isStaleVmax (nfiStatus : NFIStatus) (context : Option SprintContext) : Bool :=
  match context with
  | none => false
  | some c => (decide (nfiStatus = .red) || decide (nfiStatus = .amber)) && decide (0 ≤ c.tsb)

/-- SprintWorkoutGenerator.formatDescription. -/
def formatDescription (status : NFIStatus) (nfi : ℚ) (warmup : List String)
    (mainSet : List SprintBlock) (cooldown : List String) (volume : String) : String :=
  let statusLabel := match status with
    | .green => "🟢 GREEN"
    | .amber => "🟡 AMBER"
    | .red => "🔴 RED"
  let lines : List String :=
    ["🏃 SilverSprint Recommended Session",
     "Status: " ++ statusLabel ++ " (NFI: " ++ toFixedStr 1 (nfi * 100) ++ "%)",
     "",
     "WARM-UP"] ++
    warmup.map (fun w => "• " ++ w) ++
    ["", "MAIN SET"] ++
    mainSet.map (fun b =>
      "• " ++ toString b.reps ++ "× " ++ b.name ++ " — " ++ b.distance ++ " @ " ++
        b.intensity ++ " | Rest: " ++ b.rest ++ "\n  → " ++ b.cue) ++
    ["", "COOL-DOWN"] ++
    cooldown.map (fun c => "• " ++ c) ++
    ["", "Total Sprint Volume: " ++ volume]
  String.intercalate "\n" lines

/-- SprintWorkoutGenerator.greenWorkout. -/
def greenWorkout (nfi : ℚ) : SprintWorkout :=
  let warmup := [
    "10 min easy jog",
    "Dynamic stretching circuit (leg swings, walking lunges, high knees)",
    "3 × 60m progressive build-ups (60%, 75%, 90%)"]
  let mainSet : List SprintBlock := [
    { name := "Block Starts", reps := 3, distance := "30m", rest := "3–4 min walk",
      intensity := "100%",
      cue := "Explosive first step, drive for 15m then transition to upright." },
    { name := "Flying 30s", reps := 3, distance := "30m (20m run-in)",
      rest := "4 min walk-back", intensity := "100%",
      cue := "Hit top speed in the run-in zone, maintain mechanics through the timing gates." },
    { name := "Full 60m", reps := 2, distance := "60m from blocks",
      rest := "5–6 min full recovery", intensity := "95–100%",
      cue := "Aggressive drive phase, upright by 30m, hold form to the line." }]
  let cooldown := [
    "10 min easy jog",
    "Static stretching — hamstrings, hip flexors, calves (30s holds)"]
  { name := "Max Velocity — Neural Priming Session"
    status := .green
    rationale := "NFI at " ++ toFixedStr 1 (nfi * 100) ++
      "% — CNS is fully primed. Today is a day for maximal speed work with full recovery between reps."
    warmup, mainSet, cooldown
    totalSprintVolume := "~300m total sprint distance"
    workoutDescription := formatDescription .green nfi warmup mainSet cooldown "~300m" }

/-- SprintWorkoutGenerator.amberWorkout. -/
def amberWorkout (nfi : ℚ) : SprintWorkout :=
  let warmup := [
    "10 min easy jog",
    "Dynamic stretching circuit",
    "2 × 60m build-ups (60%, 80%)"]
  let mainSet : List SprintBlock := [
    { name := "Wicket Runs", reps := 4, distance := "20m (mini-hurdle spacing)",
      rest := "2 min walk-back", intensity := "Controlled",
      cue := "Focus on cadence and front-side mechanics. Smooth, not forced." },
    { name := "Short Accelerations", reps := 3, distance := "20m from 3-point stance",
      rest := "3 min walk", intensity := "90%",
      cue := "Clean lines — shin angle, arm drive, no over-striding." },
    { name := "A-Skip + B-Skip Complex", reps := 3, distance := "30m each drill",
      rest := "90s walk-back", intensity := "Technical",
      cue := "Tall posture, active ground contact, rhythmic tempo." }]
  let cooldown := [
    "10 min easy jog",
    "Light stretching + foam roll"]
  { name := "Technical Sprint — CNS Management Session"
    status := .amber
    rationale := "NFI at " ++ toFixedStr 1 (nfi * 100) ++
      "% — moderate CNS suppression. Focus on technical quality with reduced intensity. Keep total volume low."
    warmup, mainSet, cooldown
    totalSprintVolume := "~150m sprint equivalent"
    workoutDescription := formatDescription .amber nfi warmup mainSet cooldown "~150m" }

/-- SprintWorkoutGenerator.redWorkout. -/
def redWorkout (nfi : ℚ) : SprintWorkout :=
  let warmup := ["5 min easy walk"]
  let mainSet : List SprintBlock := [
    { name := "Active Recovery Walk", reps := 1, distance := "15–20 min",
      rest := "N/A", intensity := "Very Low",
      cue := "Easy pace, focus on breathing and relaxation." },
    { name := "Dynamic Mobility Circuit", reps := 2, distance := "10 min total",
      rest := "Continuous", intensity := "Low",
      cue := "Leg swings, hip circles, ankle mobilization. No ballistic movements." }]
  let cooldown := [
    "Foam rolling — quads, hamstrings, glutes (10 min)",
    "Gentle static stretching (optional)"]
  { name := "Recovery — Neural Restoration"
    status := .red
    rationale := "NFI at " ++ toFixedStr 1 (nfi * 100) ++
      "% — significant neural fatigue detected. No sprinting today. Focus on recovery to restore CNS readiness."
    warmup, mainSet, cooldown
    totalSprintVolume := "0m sprint distance"
    workoutDescription := formatDescription .red nfi warmup mainSet cooldown "0m" }

/-- SprintWorkoutGenerator.reactivationWorkout — neural re-activation
session for stale Vmax. -/
def reactivationWorkout (nfi : ℚ) (tsb : ℚ) : SprintWorkout :=
  let warmup := [
    "10 min easy jog",
    "Dynamic stretching circuit (leg swings, walking lunges, high knees)",
    "4 × 60m progressive build-ups (50%, 65%, 80%, 90%)"]
  let mainSet : List SprintBlock := [
    { name := "Standing Accelerations", reps := 3, distance := "30m",
      rest := "3 min walk-back", intensity := "90–95%",
      cue := "Smooth acceleration. Focus on shin angles and arm drive — no straining." },
    { name := "Flying 20s", reps := 3, distance := "20m (15m run-in)",
      rest := "3 min walk-back", intensity := "93–97%",
      cue := "Re-engage top-speed neural pathways. Relaxed face, fast feet, tall hips." },
    { name := "Wicket Runs", reps := 3, distance := "20m (mini-hurdle spacing)",
      rest := "2 min walk-back", intensity := "Controlled",
      cue := "Cadence and front-side mechanics. Reinforce stride pattern." }]
  let cooldown := [
    "10 min easy jog",
    "Static stretching — hamstrings, hip flexors, calves (30s holds)"]
  { name := "Neural Re-Activation — Restore Sprint Speed"
    status := .red
    rationale := "NFI at " ++ toFixedStr 1 (nfi * 100) ++ "% but TSB is " ++
      (if 0 < tsb then "+" else "") ++ toFixedStr 1 tsb ++
      " (fresh). Low Vmax is likely from detraining, not fatigue. This controlled re-activation session will restore neuromuscular coordination."
    warmup, mainSet, cooldown
    totalSprintVolume := "~150m sprint distance"
    workoutDescription := formatDescription .red nfi warmup mainSet cooldown "~150m" }

/-- SprintWorkoutGenerator.generate: the stale-Vmax pathway takes priority,
otherwise the plain status-band branch is taken.  In the source the stale
branch reads context!.tsb; isStaleVmax being true guarantees the context
is present, so the default in the Option read is never used. -/
def generate (nfiStatus : NFIStatus) (nfi : ℚ) (context : Option SprintContext) : SprintWorkout :=
  if isStaleVmax nfiStatus context then
    reactivationWorkout nfi ((context.map SprintContext.tsb).getD 0)
  else
    match nfiStatus with
    | .green => greenWorkout nfi
    | .amber => amberWorkout nfi
    | .red => redWorkout nfi

/-! ## src/unnamed/part_002 — sprint parser engine (class SprintParser) -/

inductive IntervalType where
  | Acceleration
  | MaxVelocity
  | SpeedEndurance
  | SpecialEndurance
  deriving DecidableEq, Repr

structure TrackInterval where
  type : IntervalType
  distance : ℤ
  vMax : ℚ
  duration : ℕ
  flyingVelocity : ℚ
  deriving DecidableEq, Repr

/-- Minimum velocity to consider as moving within a rep (m/s). -/
def MOVING_THRESHOLD : ℚ := 1.0

/-- Minimum distance to count as a valid rep (metres). -/
def MIN_REP_DISTANCE : ℚ := 10

/-- SprintParser.classifyType: distance-based classification. -/
def classifyType (distance : ℚ) : IntervalType :=
  if distance ≤ 40 then .Acceleration
  else if distance ≤ 80 then .MaxVelocity
  else if distance ≤ 150 then .SpeedEndurance
  else .SpecialEndurance

/-- SprintParser.computeFlyingVelocity: average of the peak sustained
window, using a sliding window of up to 3 seconds. -/
def computeFlyingVelocity (burst : List ℚ) : ℚ :=
  if burst.length = 0 then 0
  else if burst.length ≤ 3 then burst.sum / (burst.length : ℚ)
  else
    let windowSize := min 3 burst.length
    let bestAvg := (List.range (burst.length - windowSize + 1)).foldl
      (fun bestAvg i =>
        let windowAvg := ((burst.drop i).take windowSize).sum / (windowSize : ℚ)
        if bestAvg < windowAvg then windowAvg else bestAvg) 0
    toFixedQ 2 bestAvg

/-- SprintParser.classifyBurst.  Math.max(...burst) is modelled as a fold;
in the `some` branch the burst is never empty (its sum is at least 10) and,
as produced by the session walk, all its samples are at least the moving
threshold, so the fold from 0 agrees with the JS spread maximum. -/
def classifyBurst (burst : List ℚ) : Option TrackInterval :=
  let distance := burst.sum
  if distance < MIN_REP_DISTANCE then none
  else
    some {
      type := classifyType distance
      distance := jsRound distance
      vMax := burst.foldl max 0
      duration := burst.length
      flyingVelocity := computeFlyingVelocity burst }

/-- The walk of SprintParser.parseTrackSession: consecutive samples at or
above the moving threshold accumulate into the current burst; a
below-threshold sample (or the simulated trailing 0 at sequence end)
closes and classifies the burst. -/
def parseGo : List ℚ → List ℚ → List TrackInterval
  | [], currentBurst => (classifyBurst currentBurst).toList
  | v :: rest, currentBurst =>
    if MOVING_THRESHOLD ≤ v then parseGo rest (currentBurst ++ [v])
    else if currentBurst.isEmpty then parseGo rest currentBurst
    else (classifyBurst currentBurst).toList ++ parseGo rest []

/-- SprintParser.parseTrackSession: a missing velocity_smooth stream is
treated as the empty stream. -/
def parseTrackSession (velocity_smooth : Option (List ℚ)) : List TrackInterval :=
  parseGo (velocity_smooth.getD []) []

/-! ## src/unnamed/part_010 — race time estimator (class RaceEstimator) -/

/-- Age degradation rate: about 0.7% per year past age 35. -/
def AGE_DEGRADATION_PER_YEAR : ℚ := 0.007

inductive RaceDistance where
  | d100
  | d200
  | d400
  deriving DecidableEq, Repr

/-- Metres for each supported race distance. -/
def RaceDistance.metres : RaceDistance → ℚ
  | .d100 => 100
  | .d200 => 200
  | .d400 => 400

inductive Confidence where
  | high
  | moderate
  | low
  deriving DecidableEq, Repr

structure RacePhaseBreakdown where
  reaction : ℚ
  acceleration : ℚ
  maxVelocity : ℚ
  deceleration : ℚ
  deriving DecidableEq, Repr

structure TrainingProfile where
  speedEnduranceIndex : ℚ
  bestFlyingVelocity : ℚ
  avgAccelerationTime : ℚ
  seIntervalCount : ℕ
  accelIntervalCount : ℕ
  deriving DecidableEq, Repr

structure RaceEstimate where
  distance : RaceDistance
  predictedTime : ℚ
  display : String
  confidence : Confidence
  note : String
  phases : RacePhaseBreakdown
  deriving DecidableEq, Repr

structure RaceEstimatorInput where
  bestVmax60d : ℚ
  avgVmax : ℚ
  nfi : ℚ
  nfiStatus : NFIStatus
  tsb : ℚ
  age : ℚ
  activityCount : ℕ
  trainingIntervals : Option (List TrackInterval)
  deriving DecidableEq, Repr

/-- Reaction time in seconds (IAAF average). -/
def REACTION_TIME : ℚ := 0.15

/-- Baseline fraction of Vmax sustained as average speed over each distance. -/
def BASE_SPEED_SUSTAIN : RaceDistance → ℚ
  | .d100 => 0.91
  | .d200 => 0.88
  | .d400 => 0.78

/-- RaceEstimator.buildTrainingProfile. -/
def buildTrainingProfile (intervals : List TrackInterval) (peakVmax : ℚ) : TrainingProfile :=
  let seIntervals := intervals.filter
    (fun i => decide (i.type = .SpeedEndurance) || decide (i.type = .SpecialEndurance))
  let speedEnduranceIndex :=
    if 0 < seIntervals.length ∧ 0 < peakVmax then
      ((seIntervals.map (fun i => ((i.distance : ℚ) / (i.duration : ℚ)) / peakVmax)).sum)
        / (seIntervals.length : ℚ)
    else 0
  let flyingVelocities := (intervals.filter (fun i => decide (0 < i.flyingVelocity))).map
    (fun i => i.flyingVelocity)
  let bestFlyingVelocity :=
    if 0 < flyingVelocities.length then flyingVelocities.foldl max 0 else 0
  let accelIntervals := intervals.filter (fun i => decide (i.type = .Acceleration))
  let avgAccelerationTime :=
    if 0 < accelIntervals.length then
      ((accelIntervals.map (fun i => (i.duration : ℚ))).sum) / (accelIntervals.length : ℚ)
    else 0
  { speedEnduranceIndex, bestFlyingVelocity, avgAccelerationTime,
    seIntervalCount := seIntervals.length,
    accelIntervalCount := accelIntervals.length }

/-- RaceEstimator.getDynamicSustainFractions: per-distance sustain fraction,
nudged by the training profile and clamped, falling back to the baseline. -/
def getDynamicSustainFractions (profile : Option TrainingProfile) (d : RaceDistance) : ℚ :=
  match profile with
  | none => BASE_SPEED_SUSTAIN d
  | some p =>
    match d with
    | .d100 =>
      if 3 ≤ p.accelIntervalCount ∧ 0 < p.avgAccelerationTime ∧ p.avgAccelerationTime < 4.5 then
        min 0.95 (BASE_SPEED_SUSTAIN .d100 + (4.5 - p.avgAccelerationTime) * 0.01)
      else BASE_SPEED_SUSTAIN .d100
    | .d200 =>
      if 2 ≤ p.seIntervalCount ∧ 0 < p.speedEnduranceIndex then
        max 0.82 (min 0.93 (BASE_SPEED_SUSTAIN .d200 + (p.speedEnduranceIndex - 0.85) * 0.5))
      else BASE_SPEED_SUSTAIN .d200
    | .d400 =>
      if 2 ≤ p.seIntervalCount ∧ 0 < p.speedEnduranceIndex then
        max 0.70 (min 0.85 (BASE_SPEED_SUSTAIN .d400 + (p.speedEnduranceIndex - 0.85) * 0.7))
      else BASE_SPEED_SUSTAIN .d400

/-- RaceEstimator.getReadinessModifier: shifts the estimate by current
freshness, clamped to [0.95, 1.03]. -/
def getReadinessModifier (nfi tsb : ℚ) : ℚ :=
  let m1 := 1.0 + (nfi - 1.0) * 0.33
  let m2 :=
    if 5 < tsb then m1 + min (tsb * 0.001) 0.01
    else if tsb < -10 then m1 + max (tsb * 0.0005) (-0.015)
    else m1
  max 0.95 (min 1.03 m2)

/-- RaceEstimator.computePhaseBreakdown. -/
def computePhaseBreakdown (d : RaceDistance) (effectiveVmax avgSpeed : ℚ)
    (profile : Option TrainingProfile) : RacePhaseBreakdown :=
  let reaction := REACTION_TIME
  let totalRunTime := d.metres / avgSpeed
  let accelDistance : ℚ := match d with | .d100 => 30 | .d200 => 40 | .d400 => 50
  let accelAvgSpeed := effectiveVmax * 0.55
  let fixedAccelTime := accelDistance / accelAvgSpeed
  let accelerationTime :=
    match profile with
    | some p =>
      if 2 ≤ p.accelIntervalCount ∧ 0 < p.avgAccelerationTime then
        p.avgAccelerationTime * (accelDistance / 30)
      else fixedAccelTime
    | none => fixedAccelTime
  let maxVelDistance : ℚ :=
    match d with
    | .d100 => d.metres - accelDistance
    | .d200 => min 60 (d.metres - accelDistance)
    | .d400 => min 50 (d.metres - accelDistance)
  let maxVelocityTime := maxVelDistance / effectiveVmax
  let decelTime := max 0 (totalRunTime - accelerationTime - maxVelocityTime)
  { reaction := toFixedQ 2 reaction
    acceleration := toFixedQ 2 accelerationTime
    maxVelocity := toFixedQ 2 maxVelocityTime
    deceleration := toFixedQ 2 decelTime }

/-- RaceEstimator.getConfidence. -/
def getConfidence (input : RaceEstimatorInput) (profile : Option TrainingProfile) : Confidence :=
  let hasGoodHistory : Bool :=
    match profile with
    | some p => decide (2 ≤ p.seIntervalCount) && decide (2 ≤ p.accelIntervalCount)
    | none => false
  if decide (10 ≤ input.activityCount) && decide (0 < input.bestVmax60d) && hasGoodHistory then .high
  else if decide (10 ≤ input.activityCount) && decide (0 < input.bestVmax60d) then .high
  else if 3 ≤ input.activityCount then .moderate
  else .low

/-- RaceEstimator.getNote. -/
def getNote (d : RaceDistance) (input : RaceEstimatorInput) (readinessMod : ℚ)
    (profile : Option TrainingProfile) : String :=
  let parts : List String :=
    (match profile with
     | some p =>
       if 2 ≤ p.seIntervalCount then
         ["SE index " ++ toFixedStr 0 (p.speedEnduranceIndex * 100) ++ "%"]
       else []
     | none => []) ++
    (match profile with
     | some p =>
       if 0 < p.bestFlyingVelocity then
         ["Flying " ++ toFixedStr 1 p.bestFlyingVelocity ++ " m/s"]
       else []
     | none => []) ++
    (if 40 ≤ input.age then ["Age-adjusted (" ++ ratToJSString input.age ++ "y)"] else []) ++
    (if readinessMod < 0.99 then ["Fatigue penalty applied"]
     else if 1.01 < readinessMod then ["Peak form bonus"]
     else []) ++
    (if d = .d400 ∧ input.nfiStatus = .red then ["Speed endurance likely compromised"] else []) ++
    (if input.activityCount < 5 then ["Limited training data"] else []) ++
    (if profile.isNone ∧ 5 ≤ input.activityCount then
       ["No interval history — using Vmax model only"]
     else [])
  if 0 < parts.length then String.intercalate " · " parts
  else "Based on recent training Vmax"

/-- RaceEstimator.formatTime. -/
def formatTime (seconds : ℚ) : String :=
  if seconds ≤ 0 then "--"
  else if seconds < 60 then toFixedStr 2 seconds
  else
    let mins := ⌊seconds / 60⌋
    let secs := seconds - (mins : ℚ) * 60
    toString mins ++ ":" ++ (if secs < 10 then "0" else "") ++ toFixedStr 2 secs

/-- The capability ceiling: best Vmax seen in 60 days or the rolling average. -/
def peakVmaxOf (input : RaceEstimatorInput) : ℚ := max input.bestVmax60d input.avgVmax

/-- Training profile used by estimateDistance, when interval data exists. -/
def profileOf (input : RaceEstimatorInput) (peakVmax : ℚ) : Option TrainingProfile :=
  match input.trainingIntervals with
  | some l => if 0 < l.length then some (buildTrainingProfile l peakVmax) else none
  | none => none

/-- Effective Vmax: blend of flying velocity and raw peak, capped at
1.02 times the raw peak. -/
def effectiveVmaxOf (peakVmax : ℚ) (profile : Option TrainingProfile) : ℚ :=
  match profile with
  | some p =>
    if 0 < p.bestFlyingVelocity then
      min (p.bestFlyingVelocity * 0.6 + peakVmax * 0.4) (peakVmax * 1.02)
    else peakVmax
  | none => peakVmax

/-- Age penalty factor before the 0.65 floor. -/
def agePenaltyOf (age : ℚ) : ℚ :=
  if 35 < age then 1 - (age - 35) * AGE_DEGRADATION_PER_YEAR else 1

/-- The avgSpeed computed by RaceEstimator.estimateDistance (the chain of
in-place multiplications of the source, written as one product). -/
def avgSpeedFor (d : RaceDistance) (input : RaceEstimatorInput) : ℚ :=
  let peakVmax := peakVmaxOf input
  let profile := profileOf input peakVmax
  effectiveVmaxOf peakVmax profile * getDynamicSustainFractions profile d *
    max (agePenaltyOf input.age) 0.65 * getReadinessModifier input.nfi input.tsb

/-- The raw (pre-rounding) predicted time. -/
def rawTimeFor (d : RaceDistance) (input : RaceEstimatorInput) : ℚ :=
  d.metres / avgSpeedFor d input + REACTION_TIME

/-- The zero / no-data sentinel returned when the peak velocity is not positive. -/
def noDataEstimate (d : RaceDistance) : RaceEstimate :=
  { distance := d
    predictedTime := 0
    display := "--"
    confidence := .low
    note := "Insufficient velocity data"
    phases := { reaction := 0, acceleration := 0, maxVelocity := 0, deceleration := 0 } }

/-- RaceEstimator.estimateDistance. -/
def estimateDistance (d : RaceDistance) (input : RaceEstimatorInput) : RaceEstimate :=
  let peakVmax := peakVmaxOf input
  if peakVmax ≤ 0 then noDataEstimate d
  else
    let profile := profileOf input peakVmax
    let effectiveVmax := effectiveVmaxOf peakVmax profile
    let avgSpeed := avgSpeedFor d input
    let predictedTime := toFixedQ 2 (rawTimeFor d input)
    { distance := d
      predictedTime
      display := formatTime predictedTime
      confidence := getConfidence input profile
      note := getNote d input (getReadinessModifier input.nfi input.tsb) profile
      phases := computePhaseBreakdown d effectiveVmax avgSpeed profile }

/-- RaceEstimator.estimate: estimates for 100m, 200m and 400m. -/
def estimate (input : RaceEstimatorInput) : List RaceEstimate :=
  [RaceDistance.d100, RaceDistance.d200, RaceDistance.d400].map
    (fun d => estimateDistance d input)

/-! ## Basic facts about the rounding model -/

lemma jsRound_mono {a b : ℚ} (h : a ≤ b) : jsRound a ≤ jsRound b :=
  Int.floor_le_floor (by linarith)

lemma jsRound_nonneg {q : ℚ} (h : 0 ≤ q) : 0 ≤ jsRound q :=
  Int.le_floor.mpr (by push_cast; linarith)

lemma jsRound_le {q : ℚ} {n : ℤ} (h : q ≤ (n : ℚ)) : jsRound q ≤ n := by
  have hlt : jsRound q < n + 1 := by
    rw [jsRound, Int.floor_lt]
    push_cast
    linarith
  omega

lemma jsRound_ge {q : ℚ} {n : ℤ} (h : (n : ℚ) ≤ q) : n ≤ jsRound q :=
  Int.le_floor.mpr (by push_cast; linarith)

lemma jsRound_eq_of {q : ℚ} {n : ℤ} (h1 : (n : ℚ) ≤ q + 1/2) (h2 : q + 1/2 < (n : ℚ) + 1) :
    jsRound q = n := by
  rw [jsRound, Int.floor_eq_iff]
  exact ⟨h1, by exact_mod_cast h2⟩

lemma toFixedQ_eq_of {f : ℕ} {q : ℚ} {n : ℤ}
    (h1 : (n : ℚ) ≤ q * 10 ^ f + 1/2) (h2 : q * 10 ^ f + 1/2 < (n : ℚ) + 1) :
    toFixedQ f q = (n : ℚ) / 10 ^ f := by
  have h : ⌊q * 10 ^ f + 1/2⌋ = n := Int.floor_eq_iff.mpr ⟨h1, by exact_mod_cast h2⟩
  rw [toFixedQ, h]

lemma toFixedQ_mono (f : ℕ) {a b : ℚ} (h : a ≤ b) : toFixedQ f a ≤ toFixedQ f b := by
  unfold toFixedQ
  have hp : (0 : ℚ) < 10 ^ f := by positivity
  apply (div_le_div_right hp).mpr
  exact_mod_cast Int.floor_le_floor (by nlinarith)

lemma clamp_nonneg (x : ℚ) : 0 ≤ min 100 (max 0 x) :=
  le_min (by norm_num) (le_max_left 0 x)

lemma clamp_le_100 (x : ℚ) : min 100 (max 0 x) ≤ 100 := min_le_left _ _

lemma clamp_mono {a b : ℚ} (h : a ≤ b) : min 100 (max 0 a) ≤ min 100 (max 0 b) :=
  min_le_min le_rfl (max_le_max le_rfl h)

/-! ## Readiness scorer: C1, C3, C4, C10 -/

lemma srs_core_bounds (x y z : ℚ) :
    0 ≤ jsRound (min 100 (max 0 x) * 0.45 + min 100 (max 0 y) * 0.30 +
      min 100 (max 0 z) * 0.25) ∧
    jsRound (min 100 (max 0 x) * 0.45 + min 100 (max 0 y) * 0.30 +
      min 100 (max 0 z) * 0.25) ≤ 100 := by
  have hx0 := clamp_nonneg x
  have hy0 := clamp_nonneg y
  have hz0 := clamp_nonneg z
  have hx1 := clamp_le_100 x
  have hy1 := clamp_le_100 y
  have hz1 := clamp_le_100 z
  constructor
  · exact jsRound_nonneg (by linarith)
  · exact jsRound_le (n := 100) (by push_cast; linarith)

/-- C1: calculateSRS always returns an integer in [0,100]; with the HRV
ratio at 1.0 (currentHRV = avgHRV7d > 0), TSB 20 and NFI 1.0 the score is
exactly 93 (the HRV sub-score saturates at 250/3 below 100). -/
theorem calculateSRS_range_and_ceiling :
    (∀ (hrv : HRVData) (tsb nfi : ℚ),
      0 ≤ calculateSRS hrv tsb nfi ∧ calculateSRS hrv tsb nfi ≤ 100) ∧
    (∀ h : ℚ, 0 < h → calculateSRS ⟨h, h⟩ 20 1 = 93) := by
  constructor
  · intro hrv tsb nfi
    exact srs_core_bounds
      (((if 0 < hrv.avgHRV7d then hrv.currentHRV / hrv.avgHRV7d else 1) - 0.75) / 0.30 * 100)
      ((tsb + 20) / 40 * 100)
      ((nfi - 0.90) / 0.10 * 100)
  · intro h hpos
    unfold calculateSRS
    simp only [if_pos hpos]
    rw [div_self hpos.ne']
    norm_num [jsRound, min_def, max_def]

/-- Witness for C1's hypothesised part: at currentHRV = avgHRV7d = 3 > 0
the ceiling value 93 is attained. -/
theorem calculateSRS_range_and_ceiling_w :
    (0 : ℚ) < 3 ∧ calculateSRS ⟨3, 3⟩ 20 1 = 93 :=
  ⟨by norm_num, calculateSRS_range_and_ceiling.2 3 (by norm_num)⟩

/-- C3: the traffic-light bands of getNFIStatus — green strictly above
0.97, amber on [0.94, 0.97] with both boundaries included, red strictly
below 0.94. -/
theorem getNFIStatus_bands :
    ∀ nfi : ℚ,
      (getNFIStatus nfi = .green ↔ 0.97 < nfi) ∧
      (getNFIStatus nfi = .amber ↔ 0.94 ≤ nfi ∧ nfi ≤ 0.97) ∧
      (getNFIStatus nfi = .red ↔ nfi < 0.94) := by
  intro nfi
  unfold getNFIStatus
  split_ifs with h1 h2 <;>
    refine ⟨?_, ?_, ?_⟩ <;>
    simp_all <;>
    first
    | linarith
    | (constructor <;> intro <;> linarith)

/-- C4: calculateNFI returns exactly 1.0 for every non-positive baseline;
for a positive baseline it returns the ratio rounded to 3 decimal places
(an integer multiple of 10⁻³ within half an ulp of the exact ratio). -/
theorem calculateNFI_spec :
    ∀ currentVmax avgVmax : ℚ,
      (avgVmax ≤ 0 → calculateNFI currentVmax avgVmax = 1) ∧
      (0 < avgVmax →
        (∃ n : ℤ, calculateNFI currentVmax avgVmax = (n : ℚ) / 1000) ∧
        |calculateNFI currentVmax avgVmax - currentVmax / avgVmax| ≤ 1 / 2000) := by
  intro c a
  constructor
  · intro h
    unfold calculateNFI
    rw [if_neg (not_lt.mpr h)]
  · intro h
    unfold calculateNFI
    rw [if_pos h]
    have h1 : (⌊c / a * 10 ^ 3 + 1/2⌋ : ℚ) ≤ c / a * 10 ^ 3 + 1/2 := Int.floor_le _
    have h2 : c / a * 10 ^ 3 + 1/2 < ⌊c / a * 10 ^ 3 + 1/2⌋ + 1 := Int.lt_floor_add_one _
    constructor
    · exact ⟨⌊c / a * 10 ^ 3 + 1/2⌋, by unfold toFixedQ; norm_num⟩
    · unfold toFixedQ
      rw [abs_le]
      have h10 : (10 : ℚ) ^ 3 = 1000 := by norm_num
      rw [h10] at h1 h2 ⊢
      constructor <;> linarith

/-- Witness for C4: at currentPeak 1, baselinePeak 3 the hypothesised part
holds with the rounded ratio within half an ulp of 1/3. -/
theorem calculateNFI_spec_w :
    (∃ n : ℤ, calculateNFI 1 3 = (n : ℚ) / 1000) ∧ |calculateNFI 1 3 - 1 / 3| ≤ 1 / 2000 :=
  (calculateNFI_spec 1 3).2 (by norm_num)

lemma getNFIStatus_not_green_le {nfi : ℚ}
    (h : getNFIStatus nfi = .red ∨ getNFIStatus nfi = .amber) : nfi ≤ 0.97 := by
  by_contra hc
  push_neg at hc
  unfold getNFIStatus at h
  rw [if_pos hc] at h
  rcases h with h | h <;> exact NFIStatus.noConfusion h

lemma calculateSRS_mono_nfi (hrv : HRVData) (tsb : ℚ) {n1 n2 : ℚ} (h : n1 ≤ n2) :
    calculateSRS hrv tsb n1 ≤ calculateSRS hrv tsb n2 := by
  unfold calculateSRS
  apply jsRound_mono
  have key : (n1 - 0.90) / 0.10 * 100 ≤ (n2 - 0.90) / 0.10 * 100 := by
    have e : ∀ m : ℚ, (m - 0.90) / 0.10 * 100 = 1000 * m - 900 := by
      intro m
      norm_num
      ring
    rw [e n1, e n2]
    linarith
  have hm : min 100 (max 0 ((n1 - 0.90) / 0.10 * 100)) ≤
      min 100 (max 0 ((n2 - 0.90) / 0.10 * 100)) :=
    clamp_mono key
  linarith

/-- C10: the freshness-adjusted SRS never falls below the plain SRS — the
stale-signal substitution of a neutral NFI of 1.0 can only raise the score,
because staleness forces NFI at most 0.97 and the score is monotone in NFI. -/
theorem calculateFreshnessAdjustedSRS_ge :
    ∀ (hrv : HRVData) (tsb nfi : ℚ),
      calculateSRS hrv tsb nfi ≤ calculateFreshnessAdjustedSRS hrv tsb nfi := by
  intro hrv tsb nfi
  simp only [calculateFreshnessAdjustedSRS]
  split_ifs with hst
  · have hle : nfi ≤ 0.97 := getNFIStatus_not_green_le hst.1
    exact calculateSRS_mono_nfi hrv tsb (by linarith)
  · exact le_refl _

/-! ## Stale-signal predicate and workout selection: C2, C5 -/

/-- C2: isStaleVmax is true exactly when the status band is amber or red
and the supplied TSB is non-negative; without a context it is always false. -/
theorem isStaleVmax_iff :
    ∀ s : NFIStatus,
      (∀ c : SprintContext,
        (isStaleVmax s (some c) = true ↔ (s = .amber ∨ s = .red) ∧ 0 ≤ c.tsb)) ∧
      isStaleVmax s none = false := by
  intro s
  refine ⟨fun c => ?_, rfl⟩
  simp only [isStaleVmax, Bool.and_eq_true, Bool.or_eq_true, decide_eq_true_eq]
  tauto

/-- C5: generate takes the re-activation pathway exactly when the stale
condition holds on a supplied context, and otherwise returns the plain
status-band workout; in particular red with TSB +5 re-activates while red
with TSB -15 recovers. -/
theorem generate_stale_priority :
    (∀ (s : NFIStatus) (nfi : ℚ) (c : SprintContext),
      ((s = .amber ∨ s = .red) ∧ 0 ≤ c.tsb →
        generate s nfi (some c) = reactivationWorkout nfi c.tsb) ∧
      (¬((s = .amber ∨ s = .red) ∧ 0 ≤ c.tsb) →
        generate s nfi (some c) =
          (match s with
           | .green => greenWorkout nfi
           | .amber => amberWorkout nfi
           | .red => redWorkout nfi))) ∧
    (∀ (s : NFIStatus) (nfi : ℚ),
      generate s nfi none =
        (match s with
         | .green => greenWorkout nfi
         | .amber => amberWorkout nfi
         | .red => redWorkout nfi)) ∧
    (generate .red 0.90 (some ⟨5⟩)).name = "Neural Re-Activation — Restore Sprint Speed" ∧
    (generate .red 0.90 (some ⟨-15⟩)).name = "Recovery — Neural Restoration" := by
  refine ⟨?_, ?_, ?_, ?_⟩
  · intro s nfi c
    constructor
    · intro h
      have hs : isStaleVmax s (some c) = true := by
        simp only [isStaleVmax, Bool.and_eq_true, Bool.or_eq_true, decide_eq_true_eq]
        tauto
      simp [generate, hs]
    · intro h
      have hs : isStaleVmax s (some c) = false := by
        rw [Bool.eq_false_iff]
        intro hT
        simp only [isStaleVmax, Bool.and_eq_true, Bool.or_eq_true, decide_eq_true_eq] at hT
        exact h (by tauto)
      simp [generate, hs]
  · intro s nfi
    simp [generate, isStaleVmax]
  · rfl
  · rfl

/-- Witness for C5: concrete stale and non-stale selections. -/
theorem generate_stale_priority_w :
    generate .red 0.95 (some ⟨2⟩) = reactivationWorkout 0.95 2 ∧
    generate .green 0.99 (some ⟨2⟩) = greenWorkout 0.99 :=
  ⟨(generate_stale_priority.1 .red 0.95 ⟨2⟩).1 ⟨Or.inr rfl, by norm_num⟩,
   (generate_stale_priority.1 .green 0.99 ⟨2⟩).2 (by simp)⟩

/-! ## Parser: fold lemmas, burst soundness, C6, C7 -/

lemma foldl_if_lt_eq_max {α : Type} (g : α → ℚ) :
    ∀ (l : List α) (a : ℚ),
      l.foldl (fun acc i => if acc < g i then g i else acc) a =
      l.foldl (fun acc i => max acc (g i)) a := by
  intro l
  induction l with
  | nil => intro a; rfl
  | cons x t ih =>
    intro a
    simp only [List.foldl_cons]
    rw [show (if a < g x then g x else a) = max a (g x) from ?_]
    · exact ih _
    · by_cases h : a < g x
      · rw [if_pos h, max_eq_right h.le]
      · rw [if_neg h, max_eq_left (not_lt.mp h)]

lemma le_foldl_max {α : Type} (g : α → ℚ) :
    ∀ (l : List α) (a : ℚ),
      a ≤ l.foldl (fun acc i => max acc (g i)) a ∧
      ∀ x ∈ l, g x ≤ l.foldl (fun acc i => max acc (g i)) a := by
  intro l
  induction l with
  | nil => intro a; exact ⟨le_refl a, by simp⟩
  | cons y t ih =>
    intro a
    simp only [List.foldl_cons]
    obtain ⟨h1, h2⟩ := ih (max a (g y))
    refine ⟨le_trans (le_max_left _ _) h1, ?_⟩
    intro x hx
    rcases List.mem_cons.mp hx with rfl | hx
    · exact le_trans (le_max_right _ _) h1
    · exact h2 x hx

lemma foldl_max_cases {α : Type} (g : α → ℚ) :
    ∀ (l : List α) (a : ℚ),
      l.foldl (fun acc i => max acc (g i)) a = a ∨
      ∃ x ∈ l, l.foldl (fun acc i => max acc (g i)) a = g x := by
  intro l
  induction l with
  | nil => intro a; exact Or.inl rfl
  | cons y t ih =>
    intro a
    simp only [List.foldl_cons]
    rcases ih (max a (g y)) with h | ⟨x, hx, hh⟩
    · rcases max_choice a (g y) with hm | hm
      · exact Or.inl (h.trans hm)
      · exact Or.inr ⟨y, List.mem_cons_self _ _, h.trans hm⟩
    · exact Or.inr ⟨x, List.mem_cons_of_mem _ hx, hh⟩

lemma le_foldr_max {α : Type} (g : α → ℚ) :
    ∀ (l : List α) (a : ℚ),
      a ≤ l.foldr (fun i acc => max (g i) acc) a ∧
      ∀ x ∈ l, g x ≤ l.foldr (fun i acc => max (g i) acc) a := by
  intro l
  induction l with
  | nil => intro a; exact ⟨le_refl a, by simp⟩
  | cons y t ih =>
    intro a
    simp only [List.foldr_cons]
    obtain ⟨h1, h2⟩ := ih a
    refine ⟨le_trans h1 (le_max_right _ _), ?_⟩
    intro x hx
    rcases List.mem_cons.mp hx with rfl | hx
    · exact le_max_left _ _
    · exact le_trans (h2 x hx) (le_max_right _ _)

lemma foldr_max_cases {α : Type} (g : α → ℚ) :
    ∀ (l : List α) (a : ℚ),
      l.foldr (fun i acc => max (g i) acc) a = a ∨
      ∃ x ∈ l, l.foldr (fun i acc => max (g i) acc) a = g x := by
  intro l
  induction l with
  | nil => intro a; exact Or.inl rfl
  | cons y t ih =>
    intro a
    simp only [List.foldr_cons]
    rcases max_choice (g y) (t.foldr (fun i acc => max (g i) acc) a) with hm | hm
    · exact Or.inr ⟨y, List.mem_cons_self _ _, hm⟩
    · rcases ih a with h | ⟨x, hx, hh⟩
      · exact Or.inl (hm.trans h)
      · exact Or.inr ⟨x, List.mem_cons_of_mem _ hx, hm.trans hh⟩

lemma foldl_max_eq_foldr_max {α : Type} (g : α → ℚ) (l : List α) (a : ℚ) :
    l.foldl (fun acc i => max acc (g i)) a = l.foldr (fun i acc => max (g i) acc) a := by
  apply le_antisymm
  · rcases foldl_max_cases g l a with h | ⟨x, hx, hh⟩
    · rw [h]; exact (le_foldr_max g l a).1
    · rw [hh]; exact (le_foldr_max g l a).2 x hx
  · rcases foldr_max_cases g l a with h | ⟨x, hx, hh⟩
    · rw [h]; exact (le_foldl_max g l a).1
    · rw [hh]; exact (le_foldl_max g l a).2 x hx

lemma sum_ge_length {l : List ℚ} (h : ∀ x ∈ l, (1 : ℚ) ≤ x) : (l.length : ℚ) ≤ l.sum := by
  induction l with
  | nil => simp
  | cons y t ih =>
    simp only [List.length_cons, List.sum_cons]
    push_cast
    have h1 := h y (List.mem_cons_self y t)
    have h2 := ih (fun x hx => h x (List.mem_cons_of_mem _ hx))
    linarith

lemma classifyBurst_eq_some {b : List ℚ} {i : TrackInterval}
    (h : classifyBurst b = some i) :
    MIN_REP_DISTANCE ≤ b.sum ∧
    i = { type := classifyType b.sum, distance := jsRound b.sum, vMax := b.foldl max 0,
          duration := b.length, flyingVelocity := computeFlyingVelocity b } := by
  simp only [classifyBurst] at h
  by_cases hd : b.sum < MIN_REP_DISTANCE
  · rw [if_pos hd] at h
    exact absurd h (by simp)
  · rw [if_neg hd] at h
    exact ⟨not_lt.mp hd, (Option.some.inj h).symm⟩

lemma parseGo_sound :
    ∀ (stream burst : List ℚ), (∀ x ∈ burst, MOVING_THRESHOLD ≤ x) →
      ∀ i ∈ parseGo stream burst,
        ∃ b : List ℚ, (∀ x ∈ b, MOVING_THRESHOLD ≤ x) ∧ classifyBurst b = some i := by
  intro stream
  induction stream with
  | nil =>
    intro burst hb i hi
    simp only [parseGo, Option.mem_toList, Option.mem_def] at hi
    exact ⟨burst, hb, hi⟩
  | cons v rest ih =>
    intro burst hb i hi
    simp only [parseGo] at hi
    split_ifs at hi with h1 h2
    · refine ih (burst ++ [v]) ?_ i hi
      intro x hx
      rcases List.mem_append.mp hx with hx | hx
      · exact hb x hx
      · rw [List.mem_singleton.mp hx]; exact h1
    · exact ih burst hb i hi
    · rcases List.mem_append.mp hi with hi | hi
      · rw [Option.mem_toList, Option.mem_def] at hi
        exact ⟨burst, hb, hi⟩
      · exact ih [] (by simp) i hi

/-- C7: every parsed interval reports an integer distance of at least
10 m, and its classification is determined by the fixed distance bands
applied to the raw (unrounded) burst distance. -/
theorem parse_min_distance_and_bands :
    (∀ (vs : Option (List ℚ)) (i : TrackInterval),
      i ∈ parseTrackSession vs → 10 ≤ i.distance) ∧
    (∀ (b : List ℚ) (i : TrackInterval), classifyBurst b = some i →
      10 ≤ b.sum ∧ i.distance = jsRound b.sum ∧ i.type = classifyType b.sum) ∧
    (∀ d : ℚ,
      (classifyType d = .Acceleration ↔ d ≤ 40) ∧
      (classifyType d = .MaxVelocity ↔ 40 < d ∧ d ≤ 80) ∧
      (classifyType d = .SpeedEndurance ↔ 80 < d ∧ d ≤ 150) ∧
      (classifyType d = .SpecialEndurance ↔ 150 < d)) := by
  have hburst : ∀ (b : List ℚ) (i : TrackInterval), classifyBurst b = some i →
      10 ≤ b.sum ∧ i.distance = jsRound b.sum ∧ i.type = classifyType b.sum := by
    intro b i h
    obtain ⟨hsum, hi⟩ := classifyBurst_eq_some h
    refine ⟨by simpa [MIN_REP_DISTANCE] using hsum, ?_, ?_⟩ <;> rw [hi]
  refine ⟨?_, hburst, ?_⟩
  · intro vs i hi
    obtain ⟨b, hb, hcb⟩ := parseGo_sound (vs.getD []) [] (by simp) i hi
    obtain ⟨hsum, hdist, -⟩ := hburst b i hcb
    rw [hdist]
    exact jsRound_ge (by exact_mod_cast hsum)
  · intro d
    unfold classifyType
    by_cases h1 : d ≤ 40
    · rw [if_pos h1]
      exact ⟨iff_of_true rfl h1,
        iff_of_false (by simp) (fun hc => absurd hc.1 (not_lt.mpr h1)),
        iff_of_false (by simp) (fun hc => absurd hc.1 (not_lt.mpr (by linarith))),
        iff_of_false (by simp) (fun hc => absurd hc (not_lt.mpr (by linarith)))⟩
    · push_neg at h1
      rw [if_neg (not_le.mpr h1)]
      by_cases h2 : d ≤ 80
      · rw [if_pos h2]
        exact ⟨iff_of_false (by simp) (fun hc => absurd h1 (not_lt.mpr hc)),
          iff_of_true rfl ⟨h1, h2⟩,
          iff_of_false (by simp) (fun hc => absurd hc.1 (not_lt.mpr h2)),
          iff_of_false (by simp) (fun hc => absurd hc (not_lt.mpr (by linarith)))⟩
      · push_neg at h2
        rw [if_neg (not_le.mpr h2)]
        by_cases h3 : d ≤ 150
        · rw [if_pos h3]
          exact ⟨iff_of_false (by simp) (fun hc => absurd hc (not_le.mpr (by linarith))),
            iff_of_false (by simp) (fun hc => absurd hc.2 (not_le.mpr h2)),
            iff_of_true rfl ⟨h2, h3⟩,
            iff_of_false (by simp) (fun hc => absurd hc (not_lt.mpr h3))⟩
        · push_neg at h3
          rw [if_neg (not_le.mpr h3)]
          exact ⟨iff_of_false (by simp) (fun hc => absurd hc (not_le.mpr (by linarith))),
            iff_of_false (by simp) (fun hc => absurd hc.2 (not_le.mpr (by linarith))),
            iff_of_false (by simp) (fun hc => absurd hc.2 (not_le.mpr h3)),
            iff_of_true rfl h3⟩

lemma parse_eval_345 : parseTrackSession (some [3, 4, 5]) = [⟨.Acceleration, 12, 5, 3, 4⟩] := by
  have hr : jsRound (12 : ℚ) = 12 := jsRound_eq_of (by norm_num) (by norm_num)
  norm_num [parseTrackSession, parseGo, classifyBurst, classifyType, computeFlyingVelocity,
    MOVING_THRESHOLD, MIN_REP_DISTANCE, hr, max_def]

lemma parse_eval_fourTens : parseTrackSession (some [10.1, 10.1, 10.1, 10.1]) =
    [⟨.MaxVelocity, 40, 10.1, 4, 10.1⟩] := by
  have hr : jsRound (202/5 : ℚ) = 40 := jsRound_eq_of (by norm_num) (by norm_num)
  have hf : toFixedQ 2 (101/10 : ℚ) = 101/10 := by
    rw [toFixedQ_eq_of (n := 1010) (by norm_num) (by norm_num)]
    norm_num
  norm_num [parseTrackSession, parseGo, classifyBurst, classifyType, computeFlyingVelocity,
    MOVING_THRESHOLD, MIN_REP_DISTANCE, hr, hf, max_def, List.range_succ]

/-- Witness for C7 at the concrete session [3,4,5]: one Acceleration
interval of distance 12. -/
theorem parse_min_distance_and_bands_w :
    10 ≤ (⟨.Acceleration, 12, 5, 3, 4⟩ : TrackInterval).distance ∧
    (10 ≤ ([3, 4, 5] : List ℚ).sum ∧
      (⟨.Acceleration, 12, 5, 3, 4⟩ : TrackInterval).distance = jsRound ([3, 4, 5] : List ℚ).sum ∧
      (⟨.Acceleration, 12, 5, 3, 4⟩ : TrackInterval).type = classifyType ([3, 4, 5] : List ℚ).sum) ∧
    ((classifyType 12 = .Acceleration ↔ (12 : ℚ) ≤ 40) ∧
      (classifyType 12 = .MaxVelocity ↔ 40 < (12 : ℚ) ∧ (12 : ℚ) ≤ 80) ∧
      (classifyType 12 = .SpeedEndurance ↔ 80 < (12 : ℚ) ∧ (12 : ℚ) ≤ 150) ∧
      (classifyType 12 = .SpecialEndurance ↔ 150 < (12 : ℚ))) :=
  ⟨parse_min_distance_and_bands.1 (some [3, 4, 5]) _
      (by rw [parse_eval_345]; exact List.mem_singleton_self _),
   parse_min_distance_and_bands.2.1 [3, 4, 5] _
      (by
        have hr : jsRound (12 : ℚ) = 12 := jsRound_eq_of (by norm_num) (by norm_num)
        norm_num [classifyBurst, classifyType, computeFlyingVelocity,
          MIN_REP_DISTANCE, hr, max_def]),
   parse_min_distance_and_bands.2.2 12⟩

/-- C7 counterexample: the session [10.1, 10.1, 10.1, 10.1] has raw burst
distance 40.4, classified MaxVelocity, but its reported rounded distance is
40 — so the bands applied to the reported integer distance (at most 40
means Acceleration) disagree with the produced classification. -/
theorem parse_bands_reported_distance_cex :
    ¬(∀ i ∈ parseTrackSession (some [10.1, 10.1, 10.1, 10.1]),
        10 ≤ i.distance ∧ (i.distance ≤ 40 → i.type = .Acceleration)) := by
  intro h
  have hm : (⟨.MaxVelocity, 40, 10.1, 4, 10.1⟩ : TrackInterval) ∈
      parseTrackSession (some [10.1, 10.1, 10.1, 10.1]) := by
    rw [parse_eval_fourTens]
    exact List.mem_singleton_self _
  have hc := (h _ hm).2 (by norm_num)
  exact IntervalType.noConfusion hc

/-! ## Flying velocity: C6 -/

/-- Specification-side: the arithmetic mean of the size-w window of the
burst starting at index j. -/
def windowMean (burst : List ℚ) (w j : ℕ) : ℚ := ((burst.drop j).take w).sum / (w : ℚ)

/-- Specification-side formalisation of the claim's best sliding-window
mean for bursts longer than 3 samples: the maximum of all size-3 window
means (the fold floor 0 is never attained for parser bursts, whose window
means are all at least 1). -/
def bestWindowMeanSpec (burst : List ℚ) : ℚ :=
  ((List.range (burst.length - 2)).map (fun j => windowMean burst 3 j)).foldr max 0

lemma computeFlyingVelocity_eq_spec {b : List ℚ} (h3 : 3 < b.length) :
    computeFlyingVelocity b = toFixedQ 2 (bestWindowMeanSpec b) := by
  have hlen : ¬(b.length = 0) := by omega
  have hle : ¬(b.length ≤ 3) := by omega
  unfold computeFlyingVelocity
  rw [if_neg hlen, if_neg hle]
  have hws : min 3 b.length = 3 := min_eq_left (by omega)
  simp only [hws]
  have hn : b.length - 3 + 1 = b.length - 2 := by omega
  rw [hn]
  congr 1
  rw [foldl_if_lt_eq_max (fun i => ((b.drop i).take 3).sum / ((3 : ℕ) : ℚ))]
  rw [foldl_max_eq_foldr_max]
  rw [bestWindowMeanSpec, List.foldr_map]
  rfl

/-- C6 (amended): for every emitted burst, flyingVelocity is the burst's
exact arithmetic mean when the burst has at most 3 samples (no rounding is
applied there), and the best size-3 sliding-window mean rounded to 2
decimals when the burst is longer; bestWindowMeanSpec dominates every
window and is attained on some window. -/
theorem flyingVelocity_window_mean :
    (∀ (b : List ℚ) (i : TrackInterval), classifyBurst b = some i →
      (b.length ≤ 3 → i.flyingVelocity = b.sum / (b.length : ℚ)) ∧
      (3 < b.length → i.flyingVelocity = toFixedQ 2 (bestWindowMeanSpec b))) ∧
    (∀ (b : List ℚ) (k : ℕ), k < b.length - 2 → windowMean b 3 k ≤ bestWindowMeanSpec b) ∧
    (∀ b : List ℚ, 3 < b.length → (∀ x ∈ b, MOVING_THRESHOLD ≤ x) →
      bestWindowMeanSpec b ∈ (List.range (b.length - 2)).map (fun j => windowMean b 3 j)) := by
  refine ⟨?_, ?_, ?_⟩
  · intro b i h
    obtain ⟨hsum, hi⟩ := classifyBurst_eq_some h
    have hb_ne : ¬(b.length = 0) := by
      intro he
      rw [List.length_eq_zero.mp he] at hsum
      norm_num [MIN_REP_DISTANCE] at hsum
    constructor
    · intro h3
      rw [hi]
      show computeFlyingVelocity b = _
      unfold computeFlyingVelocity
      rw [if_neg hb_ne, if_pos h3]
    · intro h3
      rw [hi]
      show computeFlyingVelocity b = _
      exact computeFlyingVelocity_eq_spec h3
  · intro b k hk
    rw [bestWindowMeanSpec, List.foldr_map]
    exact (le_foldr_max (fun j => windowMean b 3 j) (List.range (b.length - 2)) 0).2 k
      (List.mem_range.mpr hk)
  · intro b h3 hb
    have hb1 : ∀ x ∈ b, (1 : ℚ) ≤ x := by
      intro x hx
      have := hb x hx
      norm_num [MOVING_THRESHOLD] at this
      exact this
    rcases foldr_max_cases (fun j => windowMean b 3 j) (List.range (b.length - 2)) 0
      with h0 | ⟨x, hx, hh⟩
    · exfalso
      have h0lt : 0 < b.length - 2 := by omega
      have hub := (le_foldr_max (fun j => windowMean b 3 j)
        (List.range (b.length - 2)) 0).2 0 (List.mem_range.mpr h0lt)
      rw [h0] at hub
      have hlen3 : (b.take 3).length = 3 := by
        rw [List.length_take]
        omega
      have hsum3 := sum_ge_length (l := b.take 3)
        (fun x hx => hb1 x (List.take_subset _ _ hx))
      rw [hlen3] at hsum3
      have : (1 : ℚ) ≤ windowMean b 3 0 := by
        rw [windowMean, List.drop_zero]
        rw [le_div_iff (by norm_num)]
        push_cast at hsum3 ⊢
        linarith
      linarith
    · rw [bestWindowMeanSpec, List.foldr_map, hh]
      exact List.mem_map_of_mem _ hx

lemma parse_eval_two5555 :
    parseTrackSession (some [5.555, 5.555]) = [⟨.Acceleration, 11, 5.555, 2, 5.555⟩] := by
  have hr : jsRound (1111/100 : ℚ) = 11 := jsRound_eq_of (by norm_num) (by norm_num)
  norm_num [parseTrackSession, parseGo, classifyBurst, classifyType, computeFlyingVelocity,
    MOVING_THRESHOLD, MIN_REP_DISTANCE, hr, max_def]

/-- C6 counterexample: the two-sample burst [5.555, 5.555] is emitted with
flyingVelocity 5.555, the exact unrounded mean, whereas the claim's value
(the best window mean of size min(3, burst length) = 2, rounded to 2
decimal places) is 5.56. -/
theorem flyingVelocity_rounding_cex :
    (parseTrackSession (some [5.555, 5.555])).map (fun i => i.flyingVelocity) = [5.555] ∧
    toFixedQ 2 (windowMean [5.555, 5.555] 2 0) = 5.56 ∧
    (5.555 : ℚ) ≠ 5.56 := by
  refine ⟨?_, ?_, by norm_num⟩
  · rw [parse_eval_two5555]
    norm_num
  · have hw : windowMean [5.555, 5.555] 2 0 = 1111/200 := by
      norm_num [windowMean]
    rw [hw, toFixedQ_eq_of (n := 556) (by norm_num) (by norm_num)]
    norm_num

/-- Witness for C6 at concrete bursts: [3,4,5] (short burst, exact mean 4)
and [2,2,2,2] (long burst, window domination and attainment). -/
theorem flyingVelocity_window_mean_w :
    (⟨.Acceleration, 12, 5, 3, 4⟩ : TrackInterval).flyingVelocity =
      ([3, 4, 5] : List ℚ).sum / (([3, 4, 5] : List ℚ).length : ℚ) ∧
    windowMean [2, 2, 2, 2] 3 0 ≤ bestWindowMeanSpec [2, 2, 2, 2] ∧
    bestWindowMeanSpec [2, 2, 2, 2] ∈
      (List.range (([2, 2, 2, 2] : List ℚ).length - 2)).map
        (fun j => windowMean [2, 2, 2, 2] 3 j) :=
  ⟨(flyingVelocity_window_mean.1 [3, 4, 5] _
      (by
        have hr : jsRound (12 : ℚ) = 12 := jsRound_eq_of (by norm_num) (by norm_num)
        norm_num [classifyBurst, classifyType, computeFlyingVelocity,
          MIN_REP_DISTANCE, hr, max_def])).1 (by norm_num),
   flyingVelocity_window_mean.2.1 [2, 2, 2, 2] 0 (by norm_num),
   flyingVelocity_window_mean.2.2 [2, 2, 2, 2] (by norm_num)
     (by
      intro x hx
      simp only [List.mem_cons, List.not_mem_nil, or_false] at hx
      rcases hx with h | h | h | h <;> subst h <;> norm_num [MOVING_THRESHOLD])⟩

/-! ## Race estimator: C8, C9 -/

lemma sustain_bounds (profile : Option TrainingProfile) :
    (0.91 ≤ getDynamicSustainFractions profile .d100 ∧
      getDynamicSustainFractions profile .d100 ≤ 0.95) ∧
    (0.82 ≤ getDynamicSustainFractions profile .d200 ∧
      getDynamicSustainFractions profile .d200 ≤ 0.93) ∧
    (0.70 ≤ getDynamicSustainFractions profile .d400 ∧
      getDynamicSustainFractions profile .d400 ≤ 0.85) := by
  cases profile with
  | none =>
    norm_num [getDynamicSustainFractions, BASE_SPEED_SUSTAIN]
  | some p =>
    refine ⟨⟨?_, ?_⟩, ⟨?_, ?_⟩, ⟨?_, ?_⟩⟩ <;>
      simp only [getDynamicSustainFractions, BASE_SPEED_SUSTAIN] <;>
      split_ifs with h
    · refine le_min (by norm_num) ?_
      have hnn : (0 : ℚ) ≤ (4.5 - p.avgAccelerationTime) * 0.01 :=
        mul_nonneg (by linarith [h.2.2]) (by norm_num)
      linarith
    · norm_num
    · exact min_le_left _ _
    · norm_num
    · exact le_max_left _ _
    · norm_num
    · exact max_le (by norm_num) (min_le_left _ _)
    · norm_num
    · exact le_max_left _ _
    · norm_num
    · exact max_le (by norm_num) (min_le_left _ _)
    · norm_num

lemma getReadinessModifier_pos (nfi tsb : ℚ) : 0 < getReadinessModifier nfi tsb := by
  simp only [getReadinessModifier]
  exact lt_of_lt_of_le (by norm_num) (le_max_left _ _)

lemma agePenalty_floor_pos (a : ℚ) : 0 < max (agePenaltyOf a) 0.65 :=
  lt_of_lt_of_le (by norm_num) (le_max_right _ _)

lemma effectiveVmaxOf_pos {peak : ℚ} (hp : 0 < peak) (profile : Option TrainingProfile) :
    0 < effectiveVmaxOf peak profile := by
  cases profile with
  | none => exact hp
  | some p =>
    simp only [effectiveVmaxOf]
    split_ifs with h
    · refine lt_min ?_ (by nlinarith)
      nlinarith [h]
    · exact hp

lemma avgSpeedFor_eq (d : RaceDistance) (input : RaceEstimatorInput) :
    avgSpeedFor d input =
      (effectiveVmaxOf (peakVmaxOf input) (profileOf input (peakVmaxOf input)) *
        max (agePenaltyOf input.age) 0.65 * getReadinessModifier input.nfi input.tsb) *
      getDynamicSustainFractions (profileOf input (peakVmaxOf input)) d := by
  simp only [avgSpeedFor]
  ring

lemma rawTime_strict_mono {input : RaceEstimatorInput} (hp : 0 < peakVmaxOf input) :
    rawTimeFor .d100 input < rawTimeFor .d200 input ∧
    rawTimeFor .d200 input < rawTimeFor .d400 input := by
  obtain ⟨⟨s1l, s1u⟩, ⟨s2l, s2u⟩, ⟨s4l, s4u⟩⟩ :=
    sustain_bounds (profileOf input (peakVmaxOf input))
  have hFpos : 0 < effectiveVmaxOf (peakVmaxOf input) (profileOf input (peakVmaxOf input)) *
      max (agePenaltyOf input.age) 0.65 * getReadinessModifier input.nfi input.tsb :=
    mul_pos (mul_pos (effectiveVmaxOf_pos hp _) (agePenalty_floor_pos _))
      (getReadinessModifier_pos _ _)
  set F := effectiveVmaxOf (peakVmaxOf input) (profileOf input (peakVmaxOf input)) *
    max (agePenaltyOf input.age) 0.65 * getReadinessModifier input.nfi input.tsb with hF
  set s1 := getDynamicSustainFractions (profileOf input (peakVmaxOf input)) .d100 with hs1
  set s2 := getDynamicSustainFractions (profileOf input (peakVmaxOf input)) .d200 with hs2
  set s4 := getDynamicSustainFractions (profileOf input (peakVmaxOf input)) .d400 with hs4
  have e1 : rawTimeFor .d100 input = 100 / (F * s1) + REACTION_TIME := by
    rw [rawTimeFor, avgSpeedFor_eq]
    rfl
  have e2 : rawTimeFor .d200 input = 200 / (F * s2) + REACTION_TIME := by
    rw [rawTimeFor, avgSpeedFor_eq]
    rfl
  have e4 : rawTimeFor .d400 input = 400 / (F * s4) + REACTION_TIME := by
    rw [rawTimeFor, avgSpeedFor_eq]
    rfl
  have hp1 : (0 : ℚ) < F * s1 := mul_pos hFpos (lt_of_lt_of_le (by norm_num) s1l)
  have hp2 : (0 : ℚ) < F * s2 := mul_pos hFpos (lt_of_lt_of_le (by norm_num) s2l)
  have hp4 : (0 : ℚ) < F * s4 := mul_pos hFpos (lt_of_lt_of_le (by norm_num) s4l)
  constructor
  · rw [e1, e2]
    have key : (100 : ℚ) / (F * s1) < 200 / (F * s2) := by
      rw [div_lt_div_iff hp1 hp2]
      have hgap : (0 : ℚ) < 200 * s1 - 100 * s2 := by linarith
      nlinarith [mul_pos hFpos hgap]
    linarith
  · rw [e2, e4]
    have key : (200 : ℚ) / (F * s2) < 400 / (F * s4) := by
      rw [div_lt_div_iff hp2 hp4]
      have hgap : (0 : ℚ) < 400 * s2 - 200 * s4 := by linarith
      nlinarith [mul_pos hFpos hgap]
    linarith

lemma predictedTime_eq (d : RaceDistance) (input : RaceEstimatorInput) :
    (estimateDistance d input).predictedTime =
      if peakVmaxOf input ≤ 0 then 0 else toFixedQ 2 (rawTimeFor d input) := by
  simp only [estimateDistance]
  split_ifs with h <;> rfl

/-- C9 (amended): the three predicted times are non-decreasing in the
distance, and whenever the peak velocity is positive the exact
(pre-rounding) predicted times are strictly increasing; strictness of the
2-decimal rounded values can collapse (and all three are 0 in the no-data
sentinel case). -/
theorem estimate_ordered_in_distance :
    ∀ input : RaceEstimatorInput,
      ((estimateDistance .d100 input).predictedTime ≤
          (estimateDistance .d200 input).predictedTime ∧
        (estimateDistance .d200 input).predictedTime ≤
          (estimateDistance .d400 input).predictedTime) ∧
      (0 < peakVmaxOf input →
        rawTimeFor .d100 input < rawTimeFor .d200 input ∧
        rawTimeFor .d200 input < rawTimeFor .d400 input) := by
  intro input
  constructor
  · by_cases hp : peakVmaxOf input ≤ 0
    · simp [predictedTime_eq, if_pos hp]
    · push_neg at hp
      have h := rawTime_strict_mono hp
      simp only [predictedTime_eq, if_neg (not_le.mpr hp)]
      exact ⟨toFixedQ_mono 2 h.1.le, toFixedQ_mono 2 h.2.le⟩
  · exact fun hp => rawTime_strict_mono hp

/-- Witness for C9 at a concrete input with positive peak velocity. -/
theorem estimate_ordered_in_distance_w :
    (0 : ℚ) < peakVmaxOf ⟨10, 0, 1, .green, 0, 30, 5, none⟩ ∧
    (rawTimeFor .d100 ⟨10, 0, 1, .green, 0, 30, 5, none⟩ <
        rawTimeFor .d200 ⟨10, 0, 1, .green, 0, 30, 5, none⟩ ∧
      rawTimeFor .d200 ⟨10, 0, 1, .green, 0, 30, 5, none⟩ <
        rawTimeFor .d400 ⟨10, 0, 1, .green, 0, 30, 5, none⟩) :=
  ⟨by norm_num [peakVmaxOf, max_def],
   (estimate_ordered_in_distance ⟨10, 0, 1, .green, 0, 30, 5, none⟩).2
     (by norm_num [peakVmaxOf, max_def])⟩

/-- C9 counterexample: at an extreme peak velocity (100000 m/s) the
rounded 100m and 200m predictions coincide at 0.15 s, so the strict
ordering claimed for predicted times fails on the code. -/
theorem estimate_rounded_collapse_cex :
    (estimateDistance .d100 ⟨100000, 0, 1, .green, 0, 30, 0, none⟩).predictedTime = 0.15 ∧
    (estimateDistance .d200 ⟨100000, 0, 1, .green, 0, 30, 0, none⟩).predictedTime = 0.15 ∧
    ¬((estimateDistance .d100 ⟨100000, 0, 1, .green, 0, 30, 0, none⟩).predictedTime <
      (estimateDistance .d200 ⟨100000, 0, 1, .green, 0, 30, 0, none⟩).predictedTime) := by
  have hp : ¬(peakVmaxOf ⟨100000, 0, 1, .green, 0, 30, 0, none⟩ ≤ 0) := by
    norm_num [peakVmaxOf, max_def]
  have hraw1 : rawTimeFor .d100 ⟨100000, 0, 1, .green, 0, 30, 0, none⟩ = 55/364 := by
    norm_num [rawTimeFor, avgSpeedFor, peakVmaxOf, profileOf, effectiveVmaxOf, agePenaltyOf,
      getReadinessModifier, getDynamicSustainFractions, BASE_SPEED_SUSTAIN, REACTION_TIME,
      RaceDistance.metres, AGE_DEGRADATION_PER_YEAR, max_def, min_def]
  have hraw2 : rawTimeFor .d200 ⟨100000, 0, 1, .green, 0, 30, 0, none⟩ = 67/440 := by
    norm_num [rawTimeFor, avgSpeedFor, peakVmaxOf, profileOf, effectiveVmaxOf, agePenaltyOf,
      getReadinessModifier, getDynamicSustainFractions, BASE_SPEED_SUSTAIN, REACTION_TIME,
      RaceDistance.metres, AGE_DEGRADATION_PER_YEAR, max_def, min_def]
  have h1 : (estimateDistance .d100 ⟨100000, 0, 1, .green, 0, 30, 0, none⟩).predictedTime
      = 0.15 := by
    rw [predictedTime_eq, if_neg hp, hraw1, toFixedQ_eq_of (n := 15) (by norm_num) (by norm_num)]
    norm_num
  have h2 : (estimateDistance .d200 ⟨100000, 0, 1, .green, 0, 30, 0, none⟩).predictedTime
      = 0.15 := by
    rw [predictedTime_eq, if_neg hp, hraw2, toFixedQ_eq_of (n := 15) (by norm_num) (by norm_num)]
    norm_num
  exact ⟨h1, h2, by rw [h1, h2]; exact lt_irrefl _⟩

lemma avgSpeedFor_pos (d : RaceDistance) {input : RaceEstimatorInput}
    (hp : 0 < peakVmaxOf input) : 0 < avgSpeedFor d input := by
  rw [avgSpeedFor_eq]
  have hFpos : 0 < effectiveVmaxOf (peakVmaxOf input) (profileOf input (peakVmaxOf input)) *
      max (agePenaltyOf input.age) 0.65 * getReadinessModifier input.nfi input.tsb :=
    mul_pos (mul_pos (effectiveVmaxOf_pos hp _) (agePenalty_floor_pos _))
      (getReadinessModifier_pos _ _)
  obtain ⟨⟨s1l, _⟩, ⟨s2l, _⟩, ⟨s4l, _⟩⟩ := sustain_bounds (profileOf input (peakVmaxOf input))
  cases d with
  | d100 => exact mul_pos hFpos (lt_of_lt_of_le (by norm_num) s1l)
  | d200 => exact mul_pos hFpos (lt_of_lt_of_le (by norm_num) s2l)
  | d400 => exact mul_pos hFpos (lt_of_lt_of_le (by norm_num) s4l)

lemma rawTime_gt_reaction (d : RaceDistance) {input : RaceEstimatorInput}
    (hp : 0 < peakVmaxOf input) : 0.15 < rawTimeFor d input := by
  have hm : 0 < d.metres := by cases d <;> norm_num [RaceDistance.metres]
  have hdiv : 0 < d.metres / avgSpeedFor d input := div_pos hm (avgSpeedFor_pos d hp)
  rw [rawTimeFor, REACTION_TIME]
  linarith

lemma predictedTime_ge_reaction (d : RaceDistance) {input : RaceEstimatorInput}
    (hp : 0 < peakVmaxOf input) : 0.15 ≤ (estimateDistance d input).predictedTime := by
  rw [predictedTime_eq, if_neg (not_le.mpr hp)]
  have h15 : toFixedQ 2 (0.15 : ℚ) = 0.15 := by
    rw [toFixedQ_eq_of (n := 15) (by norm_num) (by norm_num)]
    norm_num
  calc (0.15 : ℚ) = toFixedQ 2 0.15 := h15.symm
    _ ≤ toFixedQ 2 (rawTimeFor d input) := toFixedQ_mono 2 (rawTime_gt_reaction d hp).le

lemma not_sentinel_of_pos_peak (d : RaceDistance) {input : RaceEstimatorInput}
    (hp : 0 < peakVmaxOf input) : estimateDistance d input ≠ noDataEstimate d := by
  intro he
  have h0 : (estimateDistance d input).predictedTime = 0 := by rw [he]; rfl
  have h15 := predictedTime_ge_reaction d hp
  rw [h0] at h15
  norm_num at h15

/-- C8 (amended): the no-data sentinel (zero predicted time, display "--",
all four phases zero) is returned for all three distances exactly when the
capability ceiling max(bestVmax60d, avgVmax) is non-positive — in
particular when bestVmax60d = 0 and the rolling average is also
non-positive, and for any negative pair; conversely a positive ceiling
always yields predictions of at least the 0.15 s reaction overhead, never
the sentinel. -/
theorem estimate_sentinel_on_nonpositive_peak :
    ∀ input : RaceEstimatorInput,
      (peakVmaxOf input ≤ 0 →
        estimate input = [noDataEstimate .d100, noDataEstimate .d200, noDataEstimate .d400] ∧
        (noDataEstimate RaceDistance.d100).predictedTime = 0 ∧
        (noDataEstimate RaceDistance.d100).display = "--" ∧
        (noDataEstimate RaceDistance.d100).phases = ⟨0, 0, 0, 0⟩ ∧
        (noDataEstimate RaceDistance.d200).predictedTime = 0 ∧
        (noDataEstimate RaceDistance.d200).display = "--" ∧
        (noDataEstimate RaceDistance.d200).phases = ⟨0, 0, 0, 0⟩ ∧
        (noDataEstimate RaceDistance.d400).predictedTime = 0 ∧
        (noDataEstimate RaceDistance.d400).display = "--" ∧
        (noDataEstimate RaceDistance.d400).phases = ⟨0, 0, 0, 0⟩) ∧
      (0 < peakVmaxOf input →
        (0.15 ≤ (estimateDistance .d100 input).predictedTime ∧
          estimateDistance .d100 input ≠ noDataEstimate .d100) ∧
        (0.15 ≤ (estimateDistance .d200 input).predictedTime ∧
          estimateDistance .d200 input ≠ noDataEstimate .d200) ∧
        (0.15 ≤ (estimateDistance .d400 input).predictedTime ∧
          estimateDistance .d400 input ≠ noDataEstimate .d400)) := by
  intro input
  constructor
  · intro hp
    refine ⟨?_, rfl, rfl, rfl, rfl, rfl, rfl, rfl, rfl, rfl⟩
    simp [estimate, estimateDistance, if_pos hp]
  · intro hp
    exact ⟨⟨predictedTime_ge_reaction _ hp, not_sentinel_of_pos_peak _ hp⟩,
      ⟨predictedTime_ge_reaction _ hp, not_sentinel_of_pos_peak _ hp⟩,
      ⟨predictedTime_ge_reaction _ hp, not_sentinel_of_pos_peak _ hp⟩⟩

/-- Witness for C8: the all-zero velocity input reaches the sentinel and a
positive-average input does not, each discharging one arm's hypothesis. -/
theorem estimate_sentinel_on_nonpositive_peak_w :
    (estimate ⟨0, 0, 1, .green, 0, 30, 0, none⟩ =
        [noDataEstimate .d100, noDataEstimate .d200, noDataEstimate .d400] ∧
      (noDataEstimate RaceDistance.d100).predictedTime = 0 ∧
      (noDataEstimate RaceDistance.d100).display = "--" ∧
      (noDataEstimate RaceDistance.d100).phases = ⟨0, 0, 0, 0⟩ ∧
      (noDataEstimate RaceDistance.d200).predictedTime = 0 ∧
      (noDataEstimate RaceDistance.d200).display = "--" ∧
      (noDataEstimate RaceDistance.d200).phases = ⟨0, 0, 0, 0⟩ ∧
      (noDataEstimate RaceDistance.d400).predictedTime = 0 ∧
      (noDataEstimate RaceDistance.d400).display = "--" ∧
      (noDataEstimate RaceDistance.d400).phases = ⟨0, 0, 0, 0⟩) ∧
    ((0.15 ≤ (estimateDistance .d100 ⟨0, 10, 1, .green, 0, 30, 0, none⟩).predictedTime ∧
        estimateDistance .d100 ⟨0, 10, 1, .green, 0, 30, 0, none⟩ ≠ noDataEstimate .d100) ∧
      (0.15 ≤ (estimateDistance .d200 ⟨0, 10, 1, .green, 0, 30, 0, none⟩).predictedTime ∧
        estimateDistance .d200 ⟨0, 10, 1, .green, 0, 30, 0, none⟩ ≠ noDataEstimate .d200) ∧
      (0.15 ≤ (estimateDistance .d400 ⟨0, 10, 1, .green, 0, 30, 0, none⟩).predictedTime ∧
        estimateDistance .d400 ⟨0, 10, 1, .green, 0, 30, 0, none⟩ ≠ noDataEstimate .d400)) :=
  ⟨(estimate_sentinel_on_nonpositive_peak ⟨0, 0, 1, .green, 0, 30, 0, none⟩).1
      (by norm_num [peakVmaxOf, max_def]),
   (estimate_sentinel_on_nonpositive_peak ⟨0, 10, 1, .green, 0, 30, 0, none⟩).2
      (by norm_num [peakVmaxOf, max_def])⟩

/-- C8 counterexample: with bestVmax60d = 0 but a positive rolling average
Vmax of 10 m/s, the estimator does not return the no-data sentinel — the
100m prediction is 11.14 s, not 0. -/
theorem estimate_zero_best_cex :
    (estimateDistance .d100 ⟨0, 10, 1, .green, 0, 30, 0, none⟩).predictedTime = 11.14 ∧
    (estimateDistance .d100 ⟨0, 10, 1, .green, 0, 30, 0, none⟩).predictedTime ≠ 0 := by
  have hp : ¬(peakVmaxOf ⟨0, 10, 1, .green, 0, 30, 0, none⟩ ≤ 0) := by
    norm_num [peakVmaxOf, max_def]
  have hraw : rawTimeFor .d100 ⟨0, 10, 1, .green, 0, 30, 0, none⟩ = 20273/1820 := by
    norm_num [rawTimeFor, avgSpeedFor, peakVmaxOf, profileOf, effectiveVmaxOf, agePenaltyOf,
      getReadinessModifier, getDynamicSustainFractions, BASE_SPEED_SUSTAIN, REACTION_TIME,
      RaceDistance.metres, AGE_DEGRADATION_PER_YEAR, max_def, min_def]
  have h1 : (estimateDistance .d100 ⟨0, 10, 1, .green, 0, 30, 0, none⟩).predictedTime
      = 11.14 := by
    rw [predictedTime_eq, if_neg hp, hraw,
      toFixedQ_eq_of (n := 1114) (by norm_num) (by norm_num)]
    norm_num
  exact ⟨h1, by rw [h1]; norm_num⟩

end SilverSprint
